import Mathlib

/-!
Formal model of the rendering/compositing core in `spyral/_camera.py`.

The embedding is shallow: pygame rectangles become an integer `Rect` structure
with pygame's `contains`/`colliderect`/`clip`/`union` semantics; pygame surfaces
are abstracted to their size plus an opaque identity tag (pixel contents are
tracked as a log of screen operations); python floats arising from true division
are modelled as exact rationals; python exceptions become an explicit error
value returned next to the (unchanged-up-to-the-raise) state.

The mutable compositor state owned by the root camera (`self._rs`) is the
`RootState` structure, threaded explicitly through the operations.
-/

namespace Spyral

/-- pygame `Rect`: left, top, width, height, all integers. -/
structure Rect where
  x : Int
  y : Int
  w : Int
  h : Int
deriving DecidableEq, Repr

namespace Rect

/-- pygame `A.contains(B)`: `B` lies completely inside `A`. -/
def contains (A B : Rect) : Bool :=
  decide (A.x ≤ B.x) && decide (A.y ≤ B.y) &&
  decide (B.x + B.w ≤ A.x + A.w) && decide (B.y + B.h ≤ A.y + A.h) &&
  decide (B.x < A.x + A.w) && decide (B.y < A.y + A.h)

/-- pygame `A.colliderect(B)`: the two rectangles overlap (strict tests, so a
zero-sized rectangle collides with nothing). -/
def collide (A B : Rect) : Bool :=
  decide (A.x < B.x + B.w) && decide (A.y < B.y + B.h) &&
  decide (B.x < A.x + A.w) && decide (B.y < A.y + A.h)

/-- pygame `A.clip(B)`: the intersection, or a zero-sized rectangle at `A`'s
position when the two do not overlap. -/
def clip (A B : Rect) : Rect :=
  if A.collide B then
    { x := max A.x B.x
      y := max A.y B.y
      w := min (A.x + A.w) (B.x + B.w) - max A.x B.x
      h := min (A.y + A.h) (B.y + B.h) - max A.y B.y }
  else
    { x := A.x, y := A.y, w := 0, h := 0 }

/-- pygame `A.union(B)`: smallest rectangle covering both. -/
def union (A B : Rect) : Rect :=
  { x := min A.x B.x
    y := min A.y B.y
    w := max (A.x + A.w) (B.x + B.w) - min A.x B.x
    h := max (A.y + A.h) (B.y + B.h) - min A.y B.y }

/-- pygame `A.move(d)`: translation. -/
def move (A : Rect) (d : Int × Int) : Rect :=
  { A with x := A.x + d.1, y := A.y + d.2 }

end Rect

/-- A pygame surface, abstracted to its size plus an opaque identity tag
(`tag` stands for object identity; pixel contents are not modelled, drawing is
tracked as a log of screen operations instead). -/
structure Surface where
  w : Int
  h : Int
  tag : Nat := 0
deriving DecidableEq, Repr

/-- `surface.get_rect()`. -/
def Surface.getRect (s : Surface) : Rect := ⟨0, 0, s.w, s.h⟩

/-- `surface.subsurface(r)`: a view of size `r.w × r.h` sharing the pixels
(hence the same identity tag). -/
def Surface.subsurface (s : Surface) (r : Rect) : Surface :=
  { w := r.w, h := r.h, tag := s.tag }

/-- The python exceptions the modelled code can raise.  The two `ValueError`s
are distinguished by their message:
`valueErrorRealSize` is `ValueError("Must specify a real_size.")` (the spec's
`ConfigurationError`) and `valueErrorBackgroundSize` is
`ValueError("Background size must match the display size.")` (the spec's
`SizeMismatchError`). -/
inductive PyErr where
  | typeError
  | attributeError
  | valueErrorRealSize
  | valueErrorBackgroundSize
  | zeroDivisionError
deriving DecidableEq, Repr

/-- python `int()` applied to a rational (truncation toward zero), as performed
by `pygame.Rect` on float coordinates. -/
def pyTrunc (q : ℚ) : Int := if 0 ≤ q then ⌊q⌋ else ⌈q⌉

/-- `spyral.point.scale(p, s)`: componentwise product of a point and a scale
factor (python floats modelled as exact rationals). -/
def pointScale (p : Int × Int) (s : ℚ × ℚ) : ℚ × ℚ :=
  ((p.1 : ℚ) * s.1, (p.2 : ℚ) * s.2)

/-- Componentwise product of two scale factors (`spyral.Vec2D` multiplication). -/
def mulQ (a b : ℚ × ℚ) : ℚ × ℚ := (a.1 * b.1, a.2 * b.2)

/-- The memoized `_scale(s, factor)` helper: identity at factor `(1.0, 1.0)`,
otherwise a resampled surface of size `ceil(size * factor)` componentwise. -/
def scaleSurface (s : Surface) (f : ℚ × ℚ) : Surface :=
  if f = (1, 1) then s
  else { w := ⌈(s.w : ℚ) * f.1⌉, h := ⌈(s.h : ℚ) * f.2⌉, tag := s.tag }

/-- `_Blit`: one draw record as stored in `self._rs._blits` /
`self._rs._static_blits`.  `clipping` is the `(offset, region)` pair attached
by the sprite layer; `region = none` models a full-surface area argument. -/
structure Blit where
  surface : Surface
  rect : Rect
  layer : Int
  flags : Int
  static : Bool
  clipping : (Int × Int) × Option Rect
deriving DecidableEq, Repr

/-- The on-screen rectangle of a record in `_draw`:
`blit_rect = blit.rect.move(blit_clipping_offset)`. -/
def Blit.movedRect (b : Blit) : Rect := b.rect.move b.clipping.1

/-- Association-list update with python-dict semantics: an existing key keeps
its position and gets the new value, a fresh key is appended. -/
def assocSet {α β : Type} [DecidableEq α] : List (α × β) → α → β → List (α × β)
  | [], k, v => [(k, v)]
  | (k', v') :: rest, k, v =>
    if k' = k then (k, v) :: rest else (k', v') :: assocSet rest k v

/-- The mutable compositor state owned by the root camera (`self._rs`):
live background, this-frame pending dynamic blits, the static-blit map keyed by
sprite identity (modelled as `Nat`), the two time-shifted restoration lists,
the soft-clear list, and the per-scene deferred background store
(`self._backgrounds`, scenes also keyed by `Nat`). -/
structure RootState where
  background : Surface
  blits : List Blit
  staticBlits : List (Nat × Blit)
  clearThisFrame : List Rect
  clearNextFrame : List Rect
  softClear : List Rect
  backgrounds : List (Nat × Surface)
deriving DecidableEq, Repr

/-- The compositor state set up by the root branch of `Camera.__init__`:
a fresh default-filled background of the real size and empty bookkeeping. -/
def initRootState (rsize : Int × Int) : RootState :=
  { background := { w := rsize.1, h := rsize.2, tag := 0 }
    blits := []
    staticBlits := []
    clearThisFrame := []
    clearNextFrame := []
    softClear := []
    backgrounds := [] }

/-- A camera (viewport): virtual size, real size, stored scale factor
(`self._scale`, which after `make_child` composition holds the cumulative
scale), `self._rect` bounds, the root flag, and the `_parent` reference. -/
inductive Camera : Type where
  | mk (vsize rsize : Int × Int) (scale : ℚ × ℚ) (crect : Rect) (isRoot : Bool)
       (parent : Option Camera) : Camera

def Camera.vsize : Camera → Int × Int
  | .mk v _ _ _ _ _ => v

def Camera.rsize : Camera → Int × Int
  | .mk _ r _ _ _ _ => r

def Camera.scale : Camera → ℚ × ℚ
  | .mk _ _ s _ _ _ => s

def Camera.crect : Camera → Rect
  | .mk _ _ _ rc _ _ => rc

def Camera.isRoot : Camera → Bool
  | .mk _ _ _ _ b _ => b

def Camera.parent : Camera → Option Camera
  | .mk _ _ _ _ _ p => p

/-- Resolution of `self._rsize` at the top of `Camera.__init__`: the root
derives it from the display surface when unspecified (or `(0, 0)`); a non-root
camera must be given one explicitly, else `ValueError("Must specify a
real_size.")` is raised. -/
def resolveRsize (displaySize : Int × Int) (real_size : Option (Int × Int))
    (root : Bool) : Except PyErr (Int × Int) :=
  if root then
    .ok (match real_size with
         | none => displaySize
         | some r => if r = (0, 0) then displaySize else r)
  else
    match real_size with
    | none => .error .valueErrorRealSize
    | some r => .ok r

/-- `self._rect`: the root binds it to the display surface's rect; for a
non-root camera `__init__` leaves `_rect` unassigned (it is always overwritten
by `make_child`), modelled as the zero rectangle. -/
def initRect (root : Bool) (displaySize : Int × Int) : Rect :=
  if root then ⟨0, 0, displaySize.1, displaySize.2⟩ else ⟨0, 0, 0, 0⟩

/-- `Camera.__init__`.  `displaySize` stands for
`pygame.display.get_surface().get_size()`.  When `virtual_size` is `None` or
`(0, 0)` it defaults to the real size with scale `(1.0, 1.0)`; otherwise the
scale is the componentwise true division `rsize / vsize`, which in python
raises `ZeroDivisionError` when a virtual component is zero. -/
def Camera.init (displaySize : Int × Int) (virtual_size real_size : Option (Int × Int))
    (root : Bool) : Except PyErr Camera :=
  match resolveRsize displaySize real_size root with
  | .error e => .error e
  | .ok rsize =>
    match virtual_size with
    | none => .ok (.mk rsize rsize (1, 1) (initRect root displaySize) root none)
    | some v =>
      if v = (0, 0) then
        .ok (.mk rsize rsize (1, 1) (initRect root displaySize) root none)
      else if v.1 = 0 ∨ v.2 = 0 then
        .error .zeroDivisionError
      else
        .ok (.mk v rsize ((rsize.1 : ℚ) / (v.1 : ℚ), (rsize.2 : ℚ) / (v.2 : ℚ))
              (initRect root displaySize) root none)

/-- The `real_size` defaulting at the top of `make_child`: `None` or `(0, 0)`
falls back to the parent's virtual size (`self.get_size()`). -/
def resolveChildRsize (parent : Camera) (real_size : Option (Int × Int)) : Int × Int :=
  match real_size with
  | none => parent.vsize
  | some r => if r = (0, 0) then parent.vsize else r

/-- `Camera.make_child`: the real size defaults to the parent's virtual size;
the child is built by `Camera.__init__` with `root = False`, then its stored
scale is composed with the parent's (`y._scale = Vec2D(self._scale) * y._scale`)
and its bounds become `Rect((0, 0), point.scale(real_size, self._scale))`
(scaled by the parent's scale, truncated by `pygame.Rect`). -/
def Camera.make_child (parent : Camera) (virtual_size real_size : Option (Int × Int)) :
    Except PyErr Camera :=
  let rsz : Int × Int := resolveChildRsize parent real_size
  match Camera.init (0, 0) virtual_size (some rsz) false with
  | .error e => .error e
  | .ok y =>
    .ok (.mk y.vsize y.rsize (mulQ parent.scale y.scale)
          ⟨0, 0, pyTrunc ((rsz.1 : ℚ) * parent.scale.1),
                 pyTrunc ((rsz.2 : ℚ) * parent.scale.2)⟩
          y.isRoot (some parent))

/-- A camera's own (non-cumulative) scale factor, `realSize / virtualSize`
componentwise, as the spec's invariant states it. -/
def Camera.ownScale : Camera → ℚ × ℚ
  | .mk v r _ _ _ _ => ((r.1 : ℚ) / (v.1 : ℚ), (r.2 : ℚ) / (v.2 : ℚ))

/-- The cumulative (effective) scale: the product of a camera's own scale and
the own scales of all its ancestors. -/
def Camera.cumulativeScale : Camera → ℚ × ℚ
  | c@(.mk _ _ _ _ _ none) => c.ownScale
  | c@(.mk _ _ _ _ _ (some p)) => mulQ (Camera.cumulativeScale p) c.ownScale

/-- All virtual sizes along the parent chain have nonzero components (needed
because a defaulted virtual size is copied from the real size before the
division, so `rsize / vsize = (1, 1)` only when the size is nonzero). -/
def Camera.goodSizes : Camera → Prop
  | .mk v _ _ _ _ none => v.1 ≠ 0 ∧ v.2 ≠ 0
  | .mk v _ _ _ _ (some p) => v.1 ≠ 0 ∧ v.2 ≠ 0 ∧ Camera.goodSizes p

/-- Cameras actually constructed by the program: the root built by
`Camera.__init__(root=True)`, and children derived by `make_child`. -/
inductive WellBuilt : Camera → Prop where
  | root (displaySize : Int × Int) (vs rsz : Option (Int × Int)) (c : Camera)
      (h : Camera.init displaySize vs rsz true = .ok c) : WellBuilt c
  | child (p : Camera) (vs rsz : Option (Int × Int)) (c : Camera)
      (hp : WellBuilt p) (h : Camera.make_child p vs rsz = .ok c) : WellBuilt c

/-- The scaled destination rectangle computed at the top of `_blit` and
`_static_blit`: `position = spyral.point.scale(position, self._scale)`;
`new_surface = _scale(surface, self._scale)`;
`r = pygame.Rect(position, new_surface.get_size())` (pygame truncates float
coordinates toward zero). -/
def Camera.blitRect (cam : Camera) (surface : Surface) (position : Int × Int) : Rect :=
  let p := pointScale position cam.scale
  let ns := scaleSurface surface cam.scale
  ⟨pyTrunc p.1, pyTrunc p.2, ns.w, ns.h⟩

/-- `Camera._blit`: scale, then clip against `self._rect` — forwarded whole if
contained, clipped (destination and matching subsurface) if partially
overlapping, silently dropped if fully outside — and appended to the root's
pending list with `static = False`. -/
def Camera.blit (cam : Camera) (rs : RootState) (surface : Surface)
    (position : Int × Int) (layer flags : Int)
    (clipping : (Int × Int) × Option Rect) : RootState :=
  let newSurface := scaleSurface surface cam.scale
  let r := cam.blitRect surface position
  if cam.crect.contains r then
    { rs with blits := rs.blits ++ [⟨newSurface, r, layer, flags, false, clipping⟩] }
  else if cam.crect.collide r then
    let x := r.clip cam.crect
    let y := x.move (-r.x, -r.y)
    { rs with blits := rs.blits ++ [⟨newSurface.subsurface y, x, layer, flags, false, clipping⟩] }
  else
    rs

/-- `Camera._static_blit`.  When the sprite already has an entry, the source
evaluates `rs._static_blits[sprite][1]` — but `_Blit` defines `__slots__` and
no `__getitem__`, so indexing it raises `TypeError` before anything is
modified.  For a fresh sprite the record is scaled and clipped exactly as in
`_blit`, stored in the static map, and its rectangle is appended to
`clear_this_frame` (the `redraw` union branch is unreachable). -/
def Camera.static_blit (cam : Camera) (rs : RootState) (sprite : Nat)
    (surface : Surface) (position : Int × Int) (layer flags : Int)
    (clipping : (Int × Int) × Option Rect) : Option PyErr × RootState :=
  let redraw := (rs.staticBlits.lookup sprite).isSome
  if redraw then
    (some .typeError, rs)
  else
    let newSurface := scaleSurface surface cam.scale
    let r := cam.blitRect surface position
    if cam.crect.contains r then
      (none, { rs with
                staticBlits := assocSet rs.staticBlits sprite ⟨newSurface, r, layer, flags, true, clipping⟩
                clearThisFrame := rs.clearThisFrame ++ [r] })
    else if cam.crect.collide r then
      let x := r.clip cam.crect
      let y := x.move (-r.x, -r.y)
      (none, { rs with
                staticBlits := assocSet rs.staticBlits sprite ⟨newSurface.subsurface y, x, layer, flags, true, clipping⟩
                clearThisFrame := rs.clearThisFrame ++ [x] })
    else
      (none, rs)

/-- `Camera.set_background`.  The image's size must equal the camera's virtual
size, else `ValueError("Background size must match...")` is raised with the
state untouched.  On the root camera nothing further happens; on a non-root
camera the root's live background is replaced (and a full-background restore
scheduled) when the executing scene is the director's current scene, otherwise
the image is stored in the per-scene deferred background map. -/
def Camera.set_background (cam : Camera) (rs : RootState) (image : Surface)
    (executingScene directorScene : Nat) : Option PyErr × RootState :=
  if (image.w, image.h) ≠ cam.vsize then
    (some .valueErrorBackgroundSize, rs)
  else if cam.isRoot then
    (none, rs)
  else if executingScene = directorScene then
    (none, { rs with
              background := image
              clearThisFrame := rs.clearThisFrame ++ [image.getRect] })
  else
    (none, { rs with backgrounds := assocSet rs.backgrounds executingScene image })

/-- One logged screen-surface operation performed by `_draw`. -/
inductive ScreenOp where
  | restore (area : Rect)
  | drawBlit (s : Surface) (dest : Rect) (area : Option Rect) (flags : Int)
  | present (rects : List Rect)
deriving DecidableEq, Repr

/-- The rectangle returned by `screen.blit(surface, dest, area)`: the affected
region, i.e. a rectangle at `dest`'s corner sized by the area argument (or the
whole source), clipped to the screen. -/
def blitAffected (s : Surface) (dest : Rect) (area : Option Rect)
    (screenRect : Rect) : Rect :=
  let sz : Int × Int :=
    match area with
    | some a => (a.w, a.h)
    | none => (s.w, s.h)
  Rect.clip ⟨dest.x, dest.y, sz.1, sz.2⟩ screenRect

/-- The local mutable state of the `_draw` composite loop: `clearThis` and
`clearNext` alias `self._clear_this_frame` / `self._clear_next_frame`;
`softOld` is the local `soft_clear` (the previous frame's list, consumed this
pass) and `softNew` is the freshly reset `self._soft_clear`.  `ops` logs the
screen operations. -/
structure DrawPassState where
  clearThis : List Rect
  clearNext : List Rect
  softOld : List Rect
  softNew : List Rect
  ops : List ScreenOp
  drawnStatic : Nat
deriving DecidableEq, Repr

/-- The body of the `for blit in blits` loop in `_draw`.  Off-screen records
are skipped.  A static record colliding with a `clear_this` rectangle is drawn,
with its on-screen rectangle appended to `clear_this` and to the new
`self._soft_clear`; otherwise, if it collides with an old `soft_clear`
rectangle it is drawn and `blit.rect` (the unmoved rectangle) is appended to
the old, consumed `soft_clear` list.  A dynamic record fully inside the screen
is drawn with the affected rectangle appended to `clear_next`; a dynamic record
partially overlapping the screen reaches `blit.surf.subsurface(...)`, and
`_Blit` has no attribute `surf`, so `AttributeError` is raised. -/
def drawStep (screenRect : Rect) (flagsAvail : Bool) (st : DrawPassState)
    (b : Blit) : Except PyErr DrawPassState :=
  let blitRect := b.movedRect
  let blitFlags := if flagsAvail then b.flags else 0
  if !(screenRect.contains blitRect) && !(screenRect.collide blitRect) then
    .ok st
  else if b.static then
    if st.clearThis.any (fun rect => blitRect.collide rect) then
      .ok { st with
             ops := st.ops ++ [.drawBlit b.surface blitRect b.clipping.2 blitFlags]
             clearThis := st.clearThis ++ [blitRect]
             softNew := st.softNew ++ [blitRect]
             drawnStatic := st.drawnStatic + 1 }
    else if st.softOld.any (fun rect => blitRect.collide rect) then
      .ok { st with
             ops := st.ops ++ [.drawBlit b.surface blitRect b.clipping.2 blitFlags]
             softOld := st.softOld ++ [b.rect]
             drawnStatic := st.drawnStatic + 1 }
    else
      .ok st
  else if screenRect.contains blitRect then
    let r := blitAffected b.surface blitRect b.clipping.2 screenRect
    .ok { st with
           ops := st.ops ++ [.drawBlit b.surface blitRect b.clipping.2 blitFlags]
           clearNext := st.clearNext ++ [r] }
  else
    .error .attributeError

/-- Runs the composite loop over the sorted records, stopping at the first
raised exception with the mutations made so far. -/
def runBlits (screenRect : Rect) (flagsAvail : Bool) :
    List Blit → DrawPassState → Option PyErr × DrawPassState
  | [], st => (none, st)
  | b :: rest, st =>
    match drawStep screenRect flagsAvail st b with
    | .ok st' => runBlits screenRect flagsAvail rest st'
    | .error e => (some e, st)

/-- Stable insertion into a layer-sorted list: an element goes before the first
strictly larger layer and after equal layers already present. -/
def insertSorted (b : Blit) : List Blit → List Blit
  | [] => [b]
  | c :: cs => if b.layer ≤ c.layer then b :: c :: cs else c :: insertSorted b cs

/-- python's stable `list.sort(key=operator.attrgetter('layer'))`. -/
def sortByLayer (l : List Blit) : List Blit := l.foldr insertSorted []

/-- Result of one `_draw` call: the raised exception if any, the compositor
state afterwards, the log of screen operations, and the final contents of the
local `soft_clear` list (the consumed previous-frame list). -/
structure DrawResult where
  err : Option PyErr
  state : RootState
  ops : List ScreenOp
  softOldFinal : List Rect
deriving DecidableEq, Repr

/-- `Camera._draw`: a no-op on non-root cameras.  Restore phase: every
rectangle of `clear_this_frame ++ soft_clear`, clipped to the background, is
copied from the background to the screen.  Composite phase: pending dynamic
blits followed by the static records, stable-sorted by layer, are processed by
`drawStep` (with `self._soft_clear` reset to empty first).  Present phase:
`pygame.display.update(clear_next + clear_this)`.  Rotate phase:
`clear_this_frame ← clear_next_frame`, `clear_next_frame ← []`, `blits ← []`.
If the loop raises, the present and rotate phases do not run and the state
keeps the mutations made before the raise. -/
def Camera.draw (cam : Camera) (screenRect : Rect) (flagsAvail : Bool)
    (rs : RootState) : DrawResult :=
  if !cam.isRoot then
    ⟨none, rs, [], rs.softClear⟩
  else
    let bgRect := rs.background.getRect
    let restoreOps := (rs.clearThisFrame ++ rs.softClear).map
      (fun i => ScreenOp.restore (bgRect.clip i))
    let blits := sortByLayer (rs.blits ++ rs.staticBlits.map Prod.snd)
    let st0 : DrawPassState :=
      { clearThis := rs.clearThisFrame
        clearNext := rs.clearNextFrame
        softOld := rs.softClear
        softNew := []
        ops := restoreOps
        drawnStatic := 0 }
    match runBlits screenRect flagsAvail blits st0 with
    | (some e, st) =>
      ⟨some e,
       { rs with
          clearThisFrame := st.clearThis
          clearNextFrame := st.clearNext
          softClear := st.softNew },
       st.ops, st.softOld⟩
    | (none, st) =>
      ⟨none,
       { rs with
          clearThisFrame := st.clearNext
          clearNextFrame := []
          blits := []
          softClear := st.softNew },
       st.ops ++ [.present (st.clearNext ++ st.clearThis)], st.softOld⟩

/-! Helper lemmas about the embedded pygame primitives. -/

/-- python `int()` of an integer-valued rational is that integer. -/
theorem pyTrunc_intCast (n : Int) : pyTrunc (n : ℚ) = n := by
  unfold pyTrunc
  split
  · exact Int.floor_intCast n
  · exact Int.ceil_intCast n

/-- The scale cache is the identity at factor `(1, 1)`. -/
theorem scaleSurface_one (s : Surface) : scaleSurface s (1, 1) = s := by
  simp [scaleSurface]

/-- Variant of `scaleSurface_one` stated at the `Prod` unit, which is how simp
normalizes the pair `(1, 1)`. -/
theorem scaleSurface_one_unit (s : Surface) : scaleSurface s 1 = s :=
  scaleSurface_one s

/-- At scale `(1, 1)` the computed destination rectangle is the raw position
and surface size. -/
theorem blitRect_scale_one (cam : Camera) (s : Surface) (p : Int × Int)
    (h : cam.scale = (1, 1)) : cam.blitRect s p = ⟨p.1, p.2, s.w, s.h⟩ := by
  simp [Camera.blitRect, pointScale, h, scaleSurface_one, scaleSurface_one_unit,
    pyTrunc_intCast]

/-- Moving a rectangle by `(0, 0)` is the identity. -/
theorem Rect.move_zero (r : Rect) : r.move (0, 0) = r := by
  simp [Rect.move]

/-- Variant of `Rect.move_zero` at the `Prod` zero, which is how simp
normalizes the pair `(0, 0)`. -/
theorem Rect.move_zero_unit (r : Rect) : r.move 0 = r :=
  Rect.move_zero r

/-- A positively-sized rectangle contained in `S` collides with `S`. -/
theorem Rect.collide_of_contains (S r : Rect) (h : S.contains r = true)
    (hw : 0 < r.w) (hh : 0 < r.h) : r.collide S = true := by
  simp only [Rect.contains, Bool.and_eq_true, decide_eq_true_eq] at h
  simp only [Rect.collide, Bool.and_eq_true, decide_eq_true_eq]
  omega

/-- Clipping a positively-sized rectangle to a containing rectangle is the
identity. -/
theorem Rect.clip_contained (S r : Rect) (h : S.contains r = true)
    (hw : 0 < r.w) (hh : 0 < r.h) : r.clip S = r := by
  have hc := Rect.collide_of_contains S r h hw hh
  obtain ⟨rx, ry, rw, rh⟩ := r
  dsimp only at hw hh
  simp only [Rect.contains, Bool.and_eq_true, decide_eq_true_eq] at h
  simp only [Rect.clip, hc, if_true, Rect.mk.injEq]
  obtain ⟨⟨⟨⟨⟨h1, h2⟩, h3⟩, h4⟩, h5⟩, h6⟩ := h
  refine ⟨?_, ?_, ?_, ?_⟩ <;> omega

/-- Clipping a containing rectangle against a positively-sized contained one
yields the contained one (the `x.clip(i)` direction used in the restore
phase). -/
theorem Rect.clip_of_contains (S r : Rect) (h : S.contains r = true)
    (hw : 0 < r.w) (hh : 0 < r.h) : S.clip r = r := by
  obtain ⟨rx, ry, rw, rh⟩ := r
  dsimp only at hw hh
  simp only [Rect.contains, Bool.and_eq_true, decide_eq_true_eq] at h
  have hc : S.collide ⟨rx, ry, rw, rh⟩ = true := by
    simp only [Rect.collide, Bool.and_eq_true, decide_eq_true_eq]
    omega
  simp only [Rect.clip, hc, if_true, Rect.mk.injEq]
  obtain ⟨⟨⟨⟨⟨h1, h2⟩, h3⟩, h4⟩, h5⟩, h6⟩ := h
  refine ⟨?_, ?_, ?_, ?_⟩ <;> omega

/-! Concrete fixtures used by witnesses and counterexamples: a root camera on a
100 × 100 display with unit scale and its freshly initialized compositor
state. -/

def screen100 : Rect := ⟨0, 0, 100, 100⟩

def camRoot : Camera := .mk (100, 100) (100, 100) (1, 1) screen100 true none

def rs0 : RootState := initRootState (100, 100)

def surf10 : Surface := { w := 10, h := 10, tag := 1 }

def img50 : Surface := { w := 50, h := 50, tag := 2 }

def img100 : Surface := { w := 100, h := 100, tag := 3 }

/-! Claim theorems. -/

/-- Claim C6: creating a non-root camera without an explicit real size fails
with `ValueError("Must specify a real_size.")` — the spec's
`ConfigurationError` — and creating it with an explicit real size never
produces this error. -/
theorem C6_nonroot_requires_real_size (displaySize : Int × Int)
    (vs : Option (Int × Int)) :
    Camera.init displaySize vs none false = .error .valueErrorRealSize ∧
    ∀ r : Int × Int, Camera.init displaySize vs (some r) false ≠ .error .valueErrorRealSize := by
  refine ⟨rfl, ?_⟩
  intro r h
  cases vs with
  | none => exact Except.noConfusion h
  | some v =>
    have h' : (if v = (0, 0) then
                 (Except.ok (Camera.mk r r (1, 1) (initRect false displaySize) false none) :
                   Except PyErr Camera)
               else if v.1 = 0 ∨ v.2 = 0 then Except.error PyErr.zeroDivisionError
               else Except.ok (Camera.mk v r ((r.1 : ℚ) / (v.1 : ℚ), (r.2 : ℚ) / (v.2 : ℚ))
                      (initRect false displaySize) false none)) =
               Except.error PyErr.valueErrorRealSize := h
    split at h'
    · exact Except.noConfusion h'
    · split at h'
      · injection h' with he
        exact PyErr.noConfusion he
      · exact Except.noConfusion h'

/-- Claim C6 witness at a concrete display and size. -/
theorem C6_witness :
    Camera.init (640, 480) none none false = .error .valueErrorRealSize ∧
    Camera.init (640, 480) none (some (10, 10)) false ≠ .error .valueErrorRealSize :=
  ⟨(C6_nonroot_requires_real_size (640, 480) none).1,
   (C6_nonroot_requires_real_size (640, 480) none).2 (10, 10)⟩

/-- Claim C7: `set_background` with an image whose size differs from the
camera's virtual size raises `ValueError("Background size must match...")` —
the spec's `SizeMismatchError` — and returns the compositor state exactly as it
was. -/
theorem C7_set_background_mismatch (cam : Camera) (rs : RootState)
    (image : Surface) (es ds : Nat) (h : (image.w, image.h) ≠ cam.vsize) :
    cam.set_background rs image es ds = (some .valueErrorBackgroundSize, rs) := by
  simp [Camera.set_background, h]

/-- Claim C7 witness: a 50 × 50 image on the 100 × 100 root camera. -/
theorem C7_witness :
    ((img50.w, img50.h) ≠ camRoot.vsize) ∧
    camRoot.set_background rs0 img50 0 0 = (some .valueErrorBackgroundSize, rs0) :=
  ⟨by decide, C7_set_background_mismatch camRoot rs0 img50 0 0 (by decide)⟩

/-- Claim C9: `set_background` on the root camera with an image of exactly the
virtual size performs only the validation: the live background,
`clear_this_frame`, the deferred per-scene background store — the whole
compositor state — are returned unchanged. -/
theorem C9_root_set_background_noop (cam : Camera) (rs : RootState)
    (image : Surface) (es ds : Nat) (hroot : cam.isRoot = true)
    (hsize : (image.w, image.h) = cam.vsize) :
    cam.set_background rs image es ds = (none, rs) := by
  simp [Camera.set_background, hsize, hroot]

/-- Claim C9 witness: a matching 100 × 100 image on the root camera. -/
theorem C9_witness :
    (camRoot.isRoot = true) ∧ ((img100.w, img100.h) = camRoot.vsize) ∧
    camRoot.set_background rs0 img100 0 0 = (none, rs0) :=
  ⟨by decide, by decide,
   C9_root_set_background_noop camRoot rs0 img100 0 0 (by decide) (by decide)⟩

/-- Claim C8: a `_blit` whose scaled destination rectangle is neither contained
in nor colliding with the issuing camera's bounds returns the compositor state
unchanged (no record appended, nothing else touched, no exception — the
operation is total). -/
theorem C8_blit_outside_noop (cam : Camera) (rs : RootState) (surface : Surface)
    (position : Int × Int) (layer flags : Int)
    (clipping : (Int × Int) × Option Rect)
    (h1 : cam.crect.contains (cam.blitRect surface position) = false)
    (h2 : cam.crect.collide (cam.blitRect surface position) = false) :
    cam.blit rs surface position layer flags clipping = rs := by
  simp [Camera.blit, h1, h2]

/-- Claim C8 witness: a 10 × 10 surface at `(200, 200)`, fully outside the
100 × 100 bounds. -/
theorem C8_witness :
    (camRoot.crect.contains (camRoot.blitRect surf10 (200, 200)) = false) ∧
    (camRoot.crect.collide (camRoot.blitRect surf10 (200, 200)) = false) ∧
    camRoot.blit rs0 surf10 (200, 200) 0 0 ((0, 0), none) = rs0 := by
  have h1 : camRoot.blitRect surf10 (200, 200) = ⟨200, 200, 10, 10⟩ :=
    blitRect_scale_one camRoot surf10 (200, 200) rfl
  refine ⟨by rw [h1]; decide, by rw [h1]; decide, ?_⟩
  exact C8_blit_outside_noop camRoot rs0 surf10 (200, 200) 0 0 ((0, 0), none)
    (by rw [h1]; decide) (by rw [h1]; decide)

/-- The static record stored by the first `static_blit` call of the C1
scenario. -/
def blit1 : Blit := ⟨surf10, ⟨10, 10, 10, 10⟩, 0, 0, true, ((0, 0), none)⟩

/-- Compositor state after one successful `static_blit` for sprite 7. -/
def rs1 : RootState :=
  { rs0 with staticBlits := [(7, blit1)], clearThisFrame := [⟨10, 10, 10, 10⟩] }

/-- Claim C1 (code bug): the first `static_blit` for sprite 7 stores its record
and schedules its rectangle, but the second call for the same sprite — both
destinations inside the bounds — raises `TypeError` when it evaluates
`rs._static_blits[sprite][1]` (`_Blit` defines `__slots__` and no
`__getitem__`, so it is not subscriptable).  The map keeps the first record and
no union rectangle is scheduled. -/
theorem C1_static_blit_replace_raises :
    camRoot.static_blit rs0 7 surf10 (10, 10) 0 0 ((0, 0), none) = (none, rs1) ∧
    camRoot.static_blit rs1 7 surf10 (30, 30) 0 0 ((0, 0), none) = (some .typeError, rs1) := by
  constructor
  · have h1 : camRoot.blitRect surf10 (10, 10) = ⟨10, 10, 10, 10⟩ :=
      blitRect_scale_one camRoot surf10 (10, 10) rfl
    have hs : scaleSurface surf10 camRoot.scale = surf10 := scaleSurface_one surf10
    have hc : camRoot.crect.contains (⟨10, 10, 10, 10⟩ : Rect) = true := by decide
    simp [Camera.static_blit, h1, hs, hc, rs0, rs1, initRootState, assocSet, blit1]
  · rfl

/-- Claim C10 (code bug): a `static_blit` whose destination lies fully outside
the bounds is a silent no-op for a sprite with no existing entry; but when an
entry for the sprite already exists the call raises `TypeError` at the
`rs._static_blits[sprite][1]` lookup — before the bounds check — rather than
returning normally (the state is nevertheless left unmodified in both
cases). -/
theorem C10_static_blit_outside :
    (camRoot.static_blit rs0 99 surf10 (500, 500) 0 0 ((0, 0), none) = (none, rs0)) ∧
    (camRoot.static_blit rs1 7 surf10 (500, 500) 0 0 ((0, 0), none) = (some .typeError, rs1)) := by
  constructor
  · have h1 : camRoot.blitRect surf10 (500, 500) = ⟨500, 500, 10, 10⟩ :=
      blitRect_scale_one camRoot surf10 (500, 500) rfl
    have hc : camRoot.crect.contains (⟨500, 500, 10, 10⟩ : Rect) = false := by decide
    have hk : camRoot.crect.collide (⟨500, 500, 10, 10⟩ : Rect) = false := by decide
    simp [Camera.static_blit, h1, hc, hk, rs0, initRootState]
  · rfl

/-- The dynamic record of the C2 scenario: a 10 × 10 surface whose clipping
offset `(95, 0)` moves its on-screen rectangle so that it only partially
overlaps the 100 × 100 display. -/
def blitCross : Blit := ⟨surf10, ⟨0, 0, 10, 10⟩, 0, 0, false, ((95, 0), none)⟩

/-- Compositor state holding one partially-overlapping dynamic record. -/
def rsC2 : RootState := { rs0 with blits := [blitCross] }

/-- Claim C2 (code bug): in the draw pass a dynamic record partially
overlapping the display reaches `blit.surf.subsurface(...)`, and `_Blit` has no
attribute `surf`, so `AttributeError` is raised; the record is not drawn and
nothing is scheduled into `clear_next_frame`, instead of the source region
being clipped and blitted as the claim states. -/
theorem C2_overlapping_dynamic_attribute_error :
    (camRoot.draw screen100 false rsC2).err = some .attributeError ∧
    (camRoot.draw screen100 false rsC2).state.clearNextFrame = [] := by
  decide

/-- The static record of the C4 scenario. -/
def staticB : Blit := ⟨surf10, ⟨0, 0, 10, 10⟩, 0, 0, true, ((0, 0), none)⟩

/-- Compositor state with one static record colliding with a previous-frame
`soft_clear` rectangle and an empty `clear_this_frame`. -/
def rsC4 : RootState :=
  { rs0 with staticBlits := [(1, staticB)], softClear := [⟨5, 5, 10, 10⟩] }

/-- Claim C4 counterexample: the static record collides with a previous-frame
`soft_clear` rectangle and with nothing in `clear_this_frame`; it is drawn,
yet its on-screen rectangle is NOT in the new `soft_clear` set after the pass
(the code appends `blit.rect` to the consumed previous-frame list instead). -/
theorem C4_counterexample :
    (ScreenOp.drawBlit surf10 ⟨0, 0, 10, 10⟩ none 0) ∈
      (camRoot.draw screen100 false rsC4).ops ∧
    (⟨0, 0, 10, 10⟩ : Rect) ∉ (camRoot.draw screen100 false rsC4).state.softClear := by
  decide

/-- Claim C4 (amended): a static record colliding with no current
`clear_this_frame` rectangle but with a previous-frame `soft_clear` rectangle
is drawn, and its unmoved `blit.rect` is appended to the consumed
previous-frame `soft_clear` list (visible only to later records of the same
pass, discarded afterwards); the new `self._soft_clear` receives nothing from
this branch and ends the pass empty. -/
theorem C4_soft_clear_redraw (cam : Camera) (rs : RootState) (b : Blit)
    (sprite : Nat) (screenRect : Rect) (hroot : cam.isRoot = true)
    (hstatic : b.static = true) (hblits : rs.blits = [])
    (hstat : rs.staticBlits = [(sprite, b)])
    (hon : screenRect.contains b.movedRect = true ∨ screenRect.collide b.movedRect = true)
    (hct : rs.clearThisFrame.any (fun rect => b.movedRect.collide rect) = false)
    (hsc : rs.softClear.any (fun rect => b.movedRect.collide rect) = true) :
    (cam.draw screenRect false rs).err = none ∧
    (ScreenOp.drawBlit b.surface b.movedRect b.clipping.2 0) ∈
      (cam.draw screenRect false rs).ops ∧
    (cam.draw screenRect false rs).softOldFinal = rs.softClear ++ [b.rect] ∧
    (cam.draw screenRect false rs).state.softClear = [] := by
  have hoff : (!(screenRect.contains b.movedRect) && !(screenRect.collide b.movedRect)) = false := by
    rcases hon with h | h <;> simp [h]
  simp [Camera.draw, hroot, hblits, hstat, sortByLayer, insertSorted, runBlits,
    drawStep, hoff, hstatic, hct, hsc]

/-- Claim C4 witness: the amended behavior at the concrete C4 state. -/
theorem C4_witness :
    (screen100.contains staticB.movedRect = true) ∧
    (rsC4.clearThisFrame.any (fun rect => staticB.movedRect.collide rect) = false) ∧
    (rsC4.softClear.any (fun rect => staticB.movedRect.collide rect) = true) ∧
    ((camRoot.draw screen100 false rsC4).err = none ∧
     (ScreenOp.drawBlit staticB.surface staticB.movedRect staticB.clipping.2 0) ∈
       (camRoot.draw screen100 false rsC4).ops ∧
     (camRoot.draw screen100 false rsC4).softOldFinal = rsC4.softClear ++ [staticB.rect] ∧
     (camRoot.draw screen100 false rsC4).state.softClear = []) :=
  ⟨by decide, by decide, by decide,
   C4_soft_clear_redraw camRoot rsC4 staticB 1 screen100 rfl rfl rfl rfl
     (Or.inl (by decide)) (by decide) (by decide)⟩

/-- Claim C3 counterexample: after the single-dynamic-blit pass the pending
list is empty, but the blit's rectangle is NOT in `clear_next_frame` — the
rotate phase has already moved it into `clear_this_frame` and emptied
`clear_next_frame`, contradicting the claim as stated. -/
theorem C3_counterexample :
    (camRoot.draw screen100 false
      (camRoot.blit rs0 surf10 (20, 20) 0 0 ((0, 0), none))).state.blits = [] ∧
    (⟨20, 20, 10, 10⟩ : Rect) ∉
      (camRoot.draw screen100 false
        (camRoot.blit rs0 surf10 (20, 20) 0 0 ((0, 0), none))).state.clearNextFrame := by
  have hb : camRoot.blit rs0 surf10 (20, 20) 0 0 ((0, 0), none) =
      { rs0 with blits := [⟨surf10, ⟨20, 20, 10, 10⟩, 0, 0, false, ((0, 0), none)⟩] } := by
    have h1 : camRoot.blitRect surf10 (20, 20) = ⟨20, 20, 10, 10⟩ :=
      blitRect_scale_one camRoot surf10 (20, 20) rfl
    have hs2 : scaleSurface surf10 camRoot.scale = surf10 := scaleSurface_one surf10
    have hc : camRoot.crect.contains (⟨20, 20, 10, 10⟩ : Rect) = true := by decide
    simp [Camera.blit, h1, hs2, hc, rs0, initRootState]
  rw [hb]
  decide

/-- Claim C3 (amended): submitting exactly one dynamic blit fully inside the
bounds to a fresh compositor and running one draw pass succeeds and leaves the
blit's rectangle in `clear_this_frame` — the rotate phase has emptied
`clear_next_frame` into it — with the pending list cleared; a second pass with
no new submissions restores that rectangle from the background and ends with
both clear lists empty. -/
theorem C3_one_blit_two_passes (cam : Camera) (rs : RootState) (s : Surface)
    (pos : Int × Int) (layer flags : Int)
    (hroot : cam.isRoot = true) (hscale : cam.scale = (1, 1))
    (hblits : rs.blits = []) (hstat : rs.staticBlits = [])
    (hct : rs.clearThisFrame = []) (hcn : rs.clearNextFrame = [])
    (hsc : rs.softClear = [])
    (hbg : rs.background.getRect = cam.crect)
    (hw : 0 < s.w) (hh : 0 < s.h)
    (hin : cam.crect.contains ⟨pos.1, pos.2, s.w, s.h⟩ = true) :
    (cam.draw cam.crect false (cam.blit rs s pos layer flags ((0, 0), none))).err = none ∧
    (cam.draw cam.crect false (cam.blit rs s pos layer flags ((0, 0), none))).state.clearThisFrame =
      [⟨pos.1, pos.2, s.w, s.h⟩] ∧
    (cam.draw cam.crect false (cam.blit rs s pos layer flags ((0, 0), none))).state.clearNextFrame = [] ∧
    (cam.draw cam.crect false (cam.blit rs s pos layer flags ((0, 0), none))).state.blits = [] ∧
    (cam.draw cam.crect false
      ((cam.draw cam.crect false (cam.blit rs s pos layer flags ((0, 0), none))).state)).err = none ∧
    ScreenOp.restore ⟨pos.1, pos.2, s.w, s.h⟩ ∈
      (cam.draw cam.crect false
        ((cam.draw cam.crect false (cam.blit rs s pos layer flags ((0, 0), none))).state)).ops ∧
    (cam.draw cam.crect false
      ((cam.draw cam.crect false (cam.blit rs s pos layer flags ((0, 0), none))).state)).state.clearThisFrame = [] ∧
    (cam.draw cam.crect false
      ((cam.draw cam.crect false (cam.blit rs s pos layer flags ((0, 0), none))).state)).state.clearNextFrame = [] := by
  have h1 := blitRect_scale_one cam s pos hscale
  have hs2 : scaleSurface s cam.scale = s := by rw [hscale]; exact scaleSurface_one s
  have hclip1 : Rect.clip ⟨pos.1, pos.2, s.w, s.h⟩ cam.crect = ⟨pos.1, pos.2, s.w, s.h⟩ :=
    Rect.clip_contained cam.crect _ hin hw hh
  have hclip2 : Rect.clip cam.crect ⟨pos.1, pos.2, s.w, s.h⟩ = ⟨pos.1, pos.2, s.w, s.h⟩ :=
    Rect.clip_of_contains cam.crect _ hin hw hh
  simp [Camera.blit, Camera.draw, h1, hs2, hin, hroot, hblits, hstat, hct, hcn, hsc,
    hbg, sortByLayer, insertSorted, runBlits, drawStep, Blit.movedRect, Rect.move_zero,
    Rect.move_zero_unit, blitAffected, hclip1, hclip2]

/-- Claim C3 witness: the amended two-pass behavior at a concrete 10 × 10 blit
at `(20, 20)` on the fresh 100 × 100 root state. -/
theorem C3_witness :
    (camRoot.crect.contains ⟨20, 20, 10, 10⟩ = true) ∧ (0 < surf10.w) ∧ (0 < surf10.h) ∧
    ((camRoot.draw camRoot.crect false (camRoot.blit rs0 surf10 (20, 20) 0 0 ((0, 0), none))).err = none ∧
     (camRoot.draw camRoot.crect false (camRoot.blit rs0 surf10 (20, 20) 0 0 ((0, 0), none))).state.clearThisFrame =
       [⟨20, 20, 10, 10⟩] ∧
     (camRoot.draw camRoot.crect false (camRoot.blit rs0 surf10 (20, 20) 0 0 ((0, 0), none))).state.clearNextFrame = [] ∧
     (camRoot.draw camRoot.crect false (camRoot.blit rs0 surf10 (20, 20) 0 0 ((0, 0), none))).state.blits = [] ∧
     (camRoot.draw camRoot.crect false
       ((camRoot.draw camRoot.crect false (camRoot.blit rs0 surf10 (20, 20) 0 0 ((0, 0), none))).state)).err = none ∧
     ScreenOp.restore ⟨20, 20, 10, 10⟩ ∈
       (camRoot.draw camRoot.crect false
         ((camRoot.draw camRoot.crect false (camRoot.blit rs0 surf10 (20, 20) 0 0 ((0, 0), none))).state)).ops ∧
     (camRoot.draw camRoot.crect false
       ((camRoot.draw camRoot.crect false (camRoot.blit rs0 surf10 (20, 20) 0 0 ((0, 0), none))).state)).state.clearThisFrame = [] ∧
     (camRoot.draw camRoot.crect false
       ((camRoot.draw camRoot.crect false (camRoot.blit rs0 surf10 (20, 20) 0 0 ((0, 0), none))).state)).state.clearNextFrame = []) :=
  ⟨by decide, by decide, by decide,
   C3_one_blit_two_passes camRoot rs0 surf10 (20, 20) 0 0 rfl rfl rfl rfl rfl rfl rfl rfl
     (by decide) (by decide) (by decide)⟩

/-! C5: scale-factor invariants along a camera chain. -/

/-- A successful `Camera.__init__` stores the scale `rsize / vsize` (its own
scale) and no parent reference, provided the resulting virtual size has
nonzero components. -/
theorem init_scale_own (ds : Int × Int) (vs rsz : Option (Int × Int)) (root : Bool)
    (c : Camera) (h : Camera.init ds vs rsz root = .ok c)
    (h1 : c.vsize.1 ≠ 0) (h2 : c.vsize.2 ≠ 0) :
    c.scale = c.ownScale ∧ c.parent = none := by
  unfold Camera.init at h
  cases hr : resolveRsize ds rsz root with
  | error e =>
    rw [hr] at h
    exact Except.noConfusion h
  | ok rsize =>
    rw [hr] at h
    cases vs with
    | none =>
      have h' : Except.ok (Camera.mk rsize rsize (1, 1) (initRect root ds) root none) =
          Except.ok c := h
      injection h' with h'
      subst h'
      refine ⟨?_, rfl⟩
      simp only [Camera.scale, Camera.ownScale, Camera.vsize] at h1 h2 ⊢
      rw [div_self (Int.cast_ne_zero.mpr h1), div_self (Int.cast_ne_zero.mpr h2)]
    | some v =>
      have h' : (if v = (0, 0) then
                   (Except.ok (Camera.mk rsize rsize (1, 1) (initRect root ds) root none) :
                     Except PyErr Camera)
                 else if v.1 = 0 ∨ v.2 = 0 then Except.error PyErr.zeroDivisionError
                 else Except.ok (Camera.mk v rsize
                        ((rsize.1 : ℚ) / (v.1 : ℚ), (rsize.2 : ℚ) / (v.2 : ℚ))
                        (initRect root ds) root none)) = Except.ok c := h
      split at h'
      · injection h' with h'
        subst h'
        refine ⟨?_, rfl⟩
        simp only [Camera.scale, Camera.ownScale, Camera.vsize] at h1 h2 ⊢
        rw [div_self (Int.cast_ne_zero.mpr h1), div_self (Int.cast_ne_zero.mpr h2)]
      · split at h'
        · exact Except.noConfusion h'
        · injection h' with h'
          subst h'
          exact ⟨rfl, rfl⟩

/-- Projection of the stored scale out of a constructor literal. -/
theorem scale_mk (v r : Int × Int) (s : ℚ × ℚ) (rc : Rect) (b : Bool)
    (p : Option Camera) : (Camera.mk v r s rc b p).scale = s := rfl

/-- A camera with no parent has its own scale as cumulative scale. -/
theorem cumulativeScale_parent_none (c : Camera) (h : c.parent = none) :
    c.cumulativeScale = c.ownScale := by
  cases c with
  | mk v r s rc b p =>
    cases p with
    | none => rfl
    | some q => exact Option.noConfusion h

/-- Unfolding equation of `cumulativeScale` at a camera with a parent. -/
theorem cumulativeScale_some (v r : Int × Int) (s : ℚ × ℚ) (rc : Rect) (b : Bool)
    (p : Camera) :
    (Camera.mk v r s rc b (some p)).cumulativeScale =
      mulQ p.cumulativeScale (Camera.mk v r s rc b (some p)).ownScale := rfl

/-- `ownScale` only depends on the size fields. -/
theorem ownScale_eq (y : Camera) (sc : ℚ × ℚ) (rc : Rect) (b : Bool)
    (p : Option Camera) :
    (Camera.mk y.vsize y.rsize sc rc b p).ownScale = y.ownScale := by
  cases y with
  | mk v r s rc' b' p' => rfl

/-- `goodSizes` yields the camera's own nonzero virtual size. -/
theorem goodSizes_vsize (c : Camera) (hg : c.goodSizes) :
    c.vsize.1 ≠ 0 ∧ c.vsize.2 ≠ 0 := by
  cases c with
  | mk v r s rc b p =>
    cases p with
    | none => exact ⟨hg.1, hg.2⟩
    | some q => exact ⟨hg.1, hg.2.1⟩

/-- Claim C5: every camera actually built by the program (the root via
`__init__`, descendants via `make_child`), with nonzero virtual sizes along
its chain, stores as `_scale` exactly the cumulative scale: the product of its
own `rsize / vsize` scale factor and the own scale factors of all its
ancestors (for a parentless camera this is its own `rsize / vsize`). -/
theorem C5_cumulative_scale (c : Camera) (hb : WellBuilt c) :
    c.goodSizes → c.scale = c.cumulativeScale := by
  induction hb with
  | root ds vs rsz c h =>
    intro hg
    obtain ⟨hnz1, hnz2⟩ := goodSizes_vsize c hg
    obtain ⟨hs, hp⟩ := init_scale_own ds vs rsz true c h hnz1 hnz2
    rw [hs, cumulativeScale_parent_none c hp]
  | child p vs rsz c hp hmk ih =>
    intro hg
    simp only [Camera.make_child] at hmk
    cases hy : Camera.init (0, 0) vs (some (resolveChildRsize p rsz)) false with
    | error e =>
      rw [hy] at hmk
      exact Except.noConfusion hmk
    | ok y =>
      rw [hy] at hmk
      injection hmk with hmk
      subst hmk
      have hgp : p.goodSizes := hg.2.2
      obtain ⟨hsy, -⟩ := init_scale_own (0, 0) vs (some (resolveChildRsize p rsz)) false y hy
        hg.1 hg.2.1
      simp only [scale_mk, cumulativeScale_some, ownScale_eq]
      rw [ih hgp, hsy]

/-- The concrete root camera of the C5 witness chain: display 100 × 100,
virtual size 50 × 50, scale `(2, 2)`. -/
def camA : Camera := .mk (50, 50) (100, 100) (2, 2) ⟨0, 0, 100, 100⟩ true none

/-- Its child: virtual 10 × 20, real 25 × 30, own scale `(5/2, 3/2)`,
stored (cumulative) scale `(5, 3)`, bounds scaled by the parent. -/
def camB : Camera := .mk (10, 20) (25, 30) (5, 3) ⟨0, 0, 50, 60⟩ false (some camA)

/-- Claim C5 witness: the invariant at the concrete two-camera chain. -/
theorem C5_witness : camB.goodSizes ∧ camB.scale = camB.cumulativeScale := by
  have hA : Camera.init (100, 100) (some (50, 50)) none true = .ok camA := by
    norm_num [Camera.init, resolveRsize, camA, initRect]
  have hB : Camera.make_child camA (some (10, 20)) (some (25, 30)) = .ok camB := by
    norm_num [Camera.make_child, resolveChildRsize, Camera.init, resolveRsize, camA, camB,
      mulQ, Camera.vsize, Camera.rsize, Camera.scale, Camera.isRoot, pyTrunc, initRect]
  have hg : camB.goodSizes := by
    show (10 : Int) ≠ 0 ∧ (20 : Int) ≠ 0 ∧ ((50 : Int) ≠ 0 ∧ (50 : Int) ≠ 0)
    decide
  exact ⟨hg,
    C5_cumulative_scale camB
      (WellBuilt.child camA (some (10, 20)) (some (25, 30)) camB
        (WellBuilt.root (100, 100) (some (50, 50)) none camA hA) hB) hg⟩

end Spyral
